import Mathlib

/-!
Verification of the deployment orchestration script (src/scripts/deploy.py)
and of the payload schema validation wrapper
(src/deploy/scripts/validate_payload.py).

The `Deploy` namespace is a shallow embedding of deploy.py:
the retrying request executor `_request`, the state classification and the
polling loop of `main`, the job-id extraction from the submission response,
the exit codes of `main`, and the idempotency key derivation
(`_json_dumps` and `_make_idempotency_key`, including a full executable
SHA-256 so that the key function is the real one).

The `Validate` namespace embeds the reporting logic of
validate_payload.py over the violation list produced by the external
jsonschema library.
-/

namespace Deploy

/-- Retryable HTTP status codes: RETRYABLE_HTTP in deploy.py. -/
def RETRYABLE_HTTP : List Nat := [429, 500, 502, 503, 504]

/-- Outcome of one network call made by one iteration of the `_request` loop.
urllib.request.urlopen returns normally only for success statuses; an HTTP
error status makes it raise HTTPError carrying the status and body; a
connection error or timeout raises URLError or TimeoutError. -/
inductive TransportOutcome where
  | ok (status : Nat) (body : List Nat)
  | httpError (status : Nat) (body : List Nat)
  | netError
deriving DecidableEq, Repr

/-- Result of `_request`: either the returned (status, body) pair, or the
RuntimeError raised for a non-retryable (or retry-exhausted) HTTP error
status, or the RuntimeError raised after network-level retry exhaustion. -/
inductive ReqResult where
  | ok (status : Nat) (body : List Nat)
  | httpFailure (status : Nat) (body : List Nat)
  | netFailure
deriving DecidableEq, Repr

/-- Retry loop of `_request` in deploy.py.  The Python loop runs
`while attempt <= max_retries` and each iteration performs one call;
a retryable HTTP status or a network failure is retried only when
`attempt < max_retries`, after `time.sleep(min(60, 2 ** attempt))`.
Here `remaining = max_retries - attempt` is the structural counter for that
guard (`attempt < max_retries` iff `remaining > 0`), while `attempt` still
numbers the call (the transport is consulted at index `attempt`, and the
sleep before the retry is `min 60 (2 ^ attempt)`).  The returned list
collects the sleep durations in order. -/
def requestGo (transport : Nat → TransportOutcome) :
    Nat → Nat → ReqResult × List Nat
  | attempt, remaining =>
    match transport attempt with
    | .ok s b => (.ok s b, [])
    | .httpError s b =>
      match remaining with
      | 0 => (.httpFailure s b, [])
      | r + 1 =>
        if s ∈ RETRYABLE_HTTP then
          let rest := requestGo transport (attempt + 1) r
          (rest.1, min 60 (2 ^ attempt) :: rest.2)
        else (.httpFailure s b, [])
    | .netError =>
      match remaining with
      | 0 => (.netFailure, [])
      | r + 1 =>
        let rest := requestGo transport (attempt + 1) r
        (rest.1, min 60 (2 ^ attempt) :: rest.2)

/-- Function `_request(method, url, headers, body, timeout, max_retries)` of
deploy.py, abstracted over the transport (one outcome per call index):
returns the result together with the list of backoff sleeps performed. -/
def request (transport : Nat → TransportOutcome) (max_retries : Nat) :
    ReqResult × List Nat :=
  requestGo transport 0 max_retries

/-- Total number of attempts (network calls) performed by `_request`:
one initial call plus one call per backoff sleep. -/
def requestAttempts (transport : Nat → TransportOutcome)
    (max_retries : Nat) : Nat :=
  (request transport max_retries).2.length + 1

/-- Normalized job state, per the classification in the polling loop of
deploy.py `main` (spec: StateClassifier). -/
inductive NormalizedState where
  | succeeded
  | failed
  | inProgress
deriving DecidableEq, Repr

/-- ASCII lowercasing of one character, the effect of Python str.lower()
on the ASCII range (the fixed vocabularies below are all ASCII). -/
def lowerChar (c : Char) : Char :=
  if 'A' ≤ c ∧ c ≤ 'Z' then Char.ofNat (c.toNat + 32) else c

/-- ASCII lowercasing of a string, modelling str.lower() in
`state = (s_resp.get("status") or s_resp.get("state") or "").lower()`. -/
def lowerString (s : String) : String :=
  ⟨s.data.map lowerChar⟩

/-- Success vocabulary of the polling loop:
`("succeeded", "success", "completed")`. -/
def SUCCESS_STATES : List String := ["succeeded", "success", "completed"]

/-- Failure vocabulary of the polling loop:
`("failed", "error", "cancelled", "canceled")`. -/
def FAILURE_STATES : List String := ["failed", "error", "cancelled", "canceled"]

/-- State classification performed inline in the polling loop of `main`
(deploy.py lines 171-184): lowercase the raw state, then exact membership
in the success vocabulary, else the failure vocabulary, else still running. -/
def classifyState (raw : String) : NormalizedState :=
  let state := lowerString raw
  if state ∈ SUCCESS_STATES then .succeeded
  else if state ∈ FAILURE_STATES then .failed
  else .inProgress

/-- Terminal disposition of the polling loop in `main`. -/
inductive PollOutcome where
  | succeeded
  | failed
  | timedOut
deriving DecidableEq, Repr

/-- Polling loop of `main` (deploy.py lines 151-184), under the abstraction
that each status request returns instantaneously, so that the elapsed time
is exactly the sum of the poll-interval sleeps performed so far.
`states k` is the raw state string carried by the k-th status response
(the value of `s_resp.get("status") or s_resp.get("state") or ""`).
Each iteration first checks `elapsed > max_wait` and times out without
issuing a request; otherwise it issues one status request (incrementing
the counter `k`), classifies the state, stops on a terminal state, and
otherwise sleeps `poll` seconds and loops.  `fuel` bounds the number of
iterations the model will unfold; `none` means the model ran out of fuel
(the Python loop would still be running).  The result pairs the outcome
with the total number of status requests issued. -/
def pollGo (states : Nat → String) (max_wait poll : Nat) :
    Nat → Nat → Nat → Option (PollOutcome × Nat)
  | 0, _, _ => none
  | fuel + 1, elapsed, k =>
    if max_wait < elapsed then some (.timedOut, k)
    else
      match classifyState (states k) with
      | .succeeded => some (.succeeded, k + 1)
      | .failed => some (.failed, k + 1)
      | .inProgress => pollGo states max_wait poll fuel (elapsed + poll) (k + 1)

/-- Entry point of the polling loop: elapsed time and request counter start
at 0.  Fuel `max_wait + 2` is enough for every positive poll interval
(the elapsed time grows by at least 1 per iteration, and the loop stops at
the first elapsed value exceeding `max_wait`). -/
def jobPoll (states : Nat → String) (max_wait poll : Nat) :
    Option (PollOutcome × Nat) :=
  pollGo states max_wait poll (max_wait + 2) 0 0

/-- JSON values, as produced by json.load / json.loads (numbers restricted
to integers, which covers every document this development evaluates). -/
inductive Json where
  | jnull
  | jbool (b : Bool)
  | jnum (n : Int)
  | jstr (s : String)
  | jarr (items : List Json)
  | jobj (pairs : List (String × Json))

/-- Python truthiness of a JSON value: None, False, 0, "", [] and the empty
dict are falsy, everything else is truthy. -/
def truthy : Json → Bool
  | .jnull => false
  | .jbool b => b
  | .jnum n => n != 0
  | .jstr s => s != ""
  | .jarr items => !items.isEmpty
  | .jobj pairs => !pairs.isEmpty

/-- Python truthiness of the result of dict.get: None (absent key) is falsy. -/
def truthyOpt : Option Json → Bool
  | none => false
  | some v => truthy v

/-- Lookup modelling dict.get(key) on a parsed JSON object (Python dicts
hold each key at most once, so field lists are assumed key-distinct). -/
def dictGet (fields : List (String × Json)) (key : String) : Option Json :=
  match fields with
  | [] => none
  | (k, v) :: rest => if k = key then some v else dictGet rest key

/-- Python `x or y` on dict.get results: keeps the left value when it is
truthy, otherwise evaluates to the right one. -/
def pyOr (a b : Option Json) : Option Json :=
  if truthyOpt a then a else b

/-- Job-id extraction from the parsed submission response (deploy.py line
140): `resp.get("jobId") or resp.get("id") or resp.get("deploymentId")`. -/
def extract_job_id (resp : List (String × Json)) : Option Json :=
  pyOr (pyOr (dictGet resp "jobId") (dictGet resp "id"))
    (dictGet resp "deploymentId")

/-- Observable outcome of one run of `main` after a successful submission
request: the process exit code, the number of status (polling) requests
issued, and the number of `_write_artifacts` calls performed. -/
structure RunResult where
  exitCode : Nat
  statusRequests : Nat
  artifactWrites : Nat
deriving DecidableEq, Repr

/-- Continuation of `main` once the submission request has returned and its
body has been parsed into `resp` (deploy.py lines 139-184): extract the job
id and exit 3 when it is falsy (without any status request); otherwise poll.
On a Succeeded state both write artifacts and exit 0; on a Failed state
write artifacts and exit 5; on timeout exit 4 (the code returns before any
artifact write).  `none` propagates fuel exhaustion of the poll model. -/
def runAfterSubmit (resp : List (String × Json)) (states : Nat → String)
    (max_wait poll : Nat) : Option RunResult :=
  let job_id := extract_job_id resp
  if truthyOpt job_id then
    match jobPoll states max_wait poll with
    | none => none
    | some (.succeeded, k) => some ⟨0, k, 1⟩
    | some (.failed, k) => some ⟨5, k, 1⟩
    | some (.timedOut, k) => some ⟨4, k, 0⟩
  else some ⟨3, 0, 0⟩

/-- Run of `main` including its configuration checks (deploy.py lines
101-106): an empty base URL or an empty API key exits 2 before any request
is made. -/
def runDeploy (base_url api_key : String) (resp : List (String × Json))
    (states : Nat → String) (max_wait poll : Nat) : Option RunResult :=
  if base_url = "" then some ⟨2, 0, 0⟩
  else if api_key = "" then some ⟨2, 0, 0⟩
  else runAfterSubmit resp states max_wait poll

/-- UTF-8 encoding of one character, the per-character effect of Python
str.encode("utf-8"). -/
def utf8EncodeChar (c : Char) : List Nat :=
  let n := c.toNat
  if n < 128 then [n]
  else if n < 2048 then [192 + n / 64, 128 + n % 64]
  else if n < 65536 then [224 + n / 4096, 128 + (n / 64) % 64, 128 + n % 64]
  else [240 + n / 262144, 128 + (n / 4096) % 64, 128 + (n / 64) % 64, 128 + n % 64]

/-- UTF-8 encoding of a string (Python str.encode("utf-8")). -/
def utf8Encode (s : String) : List Nat :=
  (s.data.map utf8EncodeChar).flatten

/-- Lowercase hexadecimal digit characters, as used by both the \u00XX
escapes of json.dumps and hashlib's hexdigest. -/
def hexDigitChar (n : Nat) : Char :=
  if n = 0 then '0' else if n = 1 then '1' else if n = 2 then '2'
  else if n = 3 then '3' else if n = 4 then '4' else if n = 5 then '5'
  else if n = 6 then '6' else if n = 7 then '7' else if n = 8 then '8'
  else if n = 9 then '9' else if n = 10 then 'a' else if n = 11 then 'b'
  else if n = 12 then 'c' else if n = 13 then 'd' else if n = 14 then 'e'
  else 'f'

/-- String escaping of one character inside a JSON string, as performed by
json.dumps with ensure_ascii=False: quote and backslash are escaped, the
control characters with short escapes use them, the remaining control
characters become \u00XX, and everything else is passed through. -/
def escapeJsonChar (c : Char) : List Char :=
  if c = '"' then ['\\', '"']
  else if c = '\\' then ['\\', '\\']
  else if c = '\n' then ['\\', 'n']
  else if c = '\r' then ['\\', 'r']
  else if c = '\t' then ['\\', 't']
  else if c = Char.ofNat 8 then ['\\', 'b']
  else if c = Char.ofNat 12 then ['\\', 'f']
  else if c.toNat < 32 then
    ['\\', 'u', '0', '0', hexDigitChar (c.toNat / 16), hexDigitChar (c.toNat % 16)]
  else [c]

/-- Rendering of a JSON string literal body with its quotes. -/
def dumpString (s : String) : List Char :=
  '"' :: (s.data.map escapeJsonChar).flatten ++ ['"']

mutual

/-- Serialization of json.dumps(data, separators=(",", ":"),
ensure_ascii=False): compact separators, no extra whitespace, and object
fields emitted in insertion order (sort_keys is not passed, so keys are NOT
sorted). -/
def dumpVal : Json → List Char
  | .jnull => "null".data
  | .jbool true => "true".data
  | .jbool false => "false".data
  | .jnum n => (toString n).data
  | .jstr s => dumpString s
  | .jarr items => '[' :: dumpArr items ++ [']']
  | .jobj pairs => '\x7b' :: dumpObj pairs ++ ['\x7d']

/-- Comma-separated serialization of array elements. -/
def dumpArr : List Json → List Char
  | [] => []
  | [x] => dumpVal x
  | x :: y :: rest => dumpVal x ++ ',' :: dumpArr (y :: rest)

/-- Comma-separated serialization of object fields, `"key":value`, in list
(insertion) order. -/
def dumpObj : List (String × Json) → List Char
  | [] => []
  | [(k, v)] => dumpString k ++ ':' :: dumpVal v
  | (k, v) :: kv :: rest => (dumpString k ++ ':' :: dumpVal v) ++ ',' :: dumpObj (kv :: rest)

end

/-- Function `_json_dumps` of deploy.py:
`json.dumps(data, separators=(",", ":"), ensure_ascii=False).encode("utf-8")`. -/
def json_dumps (data : Json) : List Nat :=
  ((dumpVal data).map utf8EncodeChar).flatten

/-- Word arithmetic is on Nat modulo 2^32. -/
def M32 : Nat := 4294967296

/-- Right rotation of a 32-bit word. -/
def rotr32 (n x : Nat) : Nat :=
  ((x >>> n) ||| (x <<< (32 - n))) % M32

/-- SHA-256 round constants (FIPS 180-4). -/
def shaK : List Nat :=
  [1116352408, 1899447441, 3049323471, 3921009573, 961987163,
   1508970993, 2453635748, 2870763221, 3624381080, 310598401,
   607225278, 1426881987, 1925078388, 2162078206, 2614888103,
   3248222580, 3835390401, 4022224774, 264347078, 604807628,
   770255983, 1249150122, 1555081692, 1996064986, 2554220882,
   2821834349, 2952996808, 3210313671, 3336571891, 3584528711,
   113926993, 338241895, 666307205, 773529912, 1294757372,
   1396182291, 1695183700, 1986661051, 2177026350, 2456956037,
   2730485921, 2820302411, 3259730800, 3345764771, 3516065817,
   3600352804, 4094571909, 275423344, 430227734, 506948616,
   659060556, 883997877, 958139571, 1322822218, 1537002063,
   1747873779, 1955562222, 2024104815, 2227730452, 2361852424,
   2428436474, 2756734187, 3204031479, 3329325298]

/-- The eight working registers / hash-state words of SHA-256. -/
structure Regs where
  ra : Nat
  rb : Nat
  rc : Nat
  rd : Nat
  re : Nat
  rf : Nat
  rg : Nat
  rh : Nat

/-- SHA-256 initial hash value (FIPS 180-4). -/
def initRegs : Regs :=
  ⟨1779033703, 3144134277, 1013904242,
   2773480762, 1359893119, 2600822924,
   528734635, 1541459225⟩

/-- SHA-256 message padding: the byte 0x80, zeros up to 56 mod 64, then the
bit length as 8 big-endian bytes. -/
def padMessage (msg : List Nat) : List Nat :=
  let L := msg.length
  let k := (119 - L % 64) % 64
  msg ++ [128] ++ List.replicate k 0 ++
    [(8 * L / 2 ^ 56) % 256, (8 * L / 2 ^ 48) % 256, (8 * L / 2 ^ 40) % 256,
     (8 * L / 2 ^ 32) % 256, (8 * L / 2 ^ 24) % 256, (8 * L / 2 ^ 16) % 256,
     (8 * L / 2 ^ 8) % 256, (8 * L) % 256]

/-- Big-endian grouping of bytes into 32-bit words (the padded message
length is a multiple of 4). -/
def bytesToWords : List Nat → List Nat
  | b0 :: b1 :: b2 :: b3 :: rest =>
    (b0 * 2 ^ 24 + b1 * 2 ^ 16 + b2 * 2 ^ 8 + b3) :: bytesToWords rest
  | _ => []

/-- Grouping of the word stream into 16-word blocks (the padded message is
a whole number of 512-bit blocks). -/
def wordBlocks16 : List Nat → List (List Nat)
  | w0 :: w1 :: w2 :: w3 :: w4 :: w5 :: w6 :: w7 ::
      w8 :: w9 :: w10 :: w11 :: w12 :: w13 :: w14 :: w15 :: rest =>
    [w0, w1, w2, w3, w4, w5, w6, w7, w8, w9, w10, w11, w12, w13, w14, w15] ::
      wordBlocks16 rest
  | _ => []

/-- SHA-256 sigma-0 function. -/
def smallSigma0 (x : Nat) : Nat :=
  (rotr32 7 x) ^^^ (rotr32 18 x) ^^^ (x >>> 3)

/-- SHA-256 sigma-1 function. -/
def smallSigma1 (x : Nat) : Nat :=
  (rotr32 17 x) ^^^ (rotr32 19 x) ^^^ (x >>> 10)

/-- SHA-256 Sigma-0 function. -/
def bigSigma0 (x : Nat) : Nat :=
  (rotr32 2 x) ^^^ (rotr32 13 x) ^^^ (rotr32 22 x)

/-- SHA-256 Sigma-1 function. -/
def bigSigma1 (x : Nat) : Nat :=
  (rotr32 6 x) ^^^ (rotr32 11 x) ^^^ (rotr32 25 x)

/-- Message-schedule expansion of a 16-word block to 64 words. -/
def schedule (w16 : List Nat) : List Nat :=
  (List.range 48).foldl
    (fun w _ =>
      let n := w.length
      w ++ [(smallSigma1 (w.getD (n - 2) 0) + w.getD (n - 7) 0 +
        smallSigma0 (w.getD (n - 15) 0) + w.getD (n - 16) 0) % M32])
    w16

/-- One SHA-256 compression round. -/
def shaRound (k w : Nat) (r : Regs) : Regs :=
  let ch := (Nat.land r.re r.rf) ^^^ (Nat.land ((M32 - 1) - r.re) r.rg)
  let t1 := (r.rh + bigSigma1 r.re + ch + k + w) % M32
  let maj := (Nat.land r.ra r.rb) ^^^ (Nat.land r.ra r.rc) ^^^ (Nat.land r.rb r.rc)
  let t2 := (bigSigma0 r.ra + maj) % M32
  ⟨(t1 + t2) % M32, r.ra, r.rb, r.rc, (r.rd + t1) % M32, r.re, r.rf, r.rg⟩

/-- Compression of one 16-word block into the running hash state. -/
def compressBlock (h : Regs) (block : List Nat) : Regs :=
  let w := schedule block
  let r := (shaK.zip w).foldl (fun r kw => shaRound kw.1 kw.2 r) h
  ⟨(h.ra + r.ra) % M32, (h.rb + r.rb) % M32, (h.rc + r.rc) % M32,
   (h.rd + r.rd) % M32, (h.re + r.re) % M32, (h.rf + r.rf) % M32,
   (h.rg + r.rg) % M32, (h.rh + r.rh) % M32⟩

/-- Lowercase hexadecimal rendering of one 32-bit word (8 digits). -/
def wordHex (w : Nat) : List Char :=
  (List.range 8).map (fun i => hexDigitChar ((w / 16 ^ (7 - i)) % 16))

/-- SHA-256 of a byte sequence rendered as lowercase hex, the composition
hashlib.sha256(raw).hexdigest(). -/
def sha256hex (msg : List Nat) : String :=
  let final := (wordBlocks16 (bytesToWords (padMessage msg))).foldl
    compressBlock initRegs
  ⟨wordHex final.ra ++ wordHex final.rb ++ wordHex final.rc ++
    wordHex final.rd ++ wordHex final.re ++ wordHex final.rf ++
    wordHex final.rg ++ wordHex final.rh⟩

/-- Function `_make_idempotency_key(payload, salt)` of deploy.py:
`hashlib.sha256(_json_dumps(payload) + salt.encode("utf-8")).hexdigest()`. -/
def make_idempotency_key (payload : Json) (salt : String) : String :=
  sha256hex (json_dumps payload ++ utf8Encode salt)

/-- Two JSON objects are equal as mappings when every key lookup agrees
(this is Python dict equality, which ignores insertion order). -/
def objEqAsMapping (o1 o2 : List (String × Json)) : Prop :=
  ∀ k, dictGet o1 k = dictGet o2 k

/-- Payload with fields a=1 then b=2, as parsed from a file written in that
key order. -/
def payloadAB : List (String × Json) := [("a", .jnum 1), ("b", .jnum 2)]

/-- The same mapping as payloadAB, parsed from a file listing b first. -/
def payloadBA : List (String × Json) := [("b", .jnum 2), ("a", .jnum 1)]

/-- Simulated transport returning 503, 503, then 200 (spec section 8). -/
def transport503 : Nat → TransportOutcome :=
  fun n => if n < 2 then .httpError 503 [] else .ok 200 [111, 107]

/-- Simulated transport returning 404 on every attempt (spec section 8). -/
def transport404 : Nat → TransportOutcome :=
  fun _ => .httpError 404 [110, 111]

/-- Simulated transport answering 200 with a body on the first attempt. -/
def transportOk200 : Nat → TransportOutcome :=
  fun _ => .ok 200 [111, 107]

/-- Status endpoint that never returns a terminal state (spec section 8). -/
def neverTerminal : Nat → String :=
  fun _ => "running"

/-- Status endpoint reporting "completed" from the first poll on. -/
def alwaysCompleted : Nat → String :=
  fun _ => "completed"

/-- Status endpoint reporting "failed" from the first poll on. -/
def alwaysFailed : Nat → String :=
  fun _ => "failed"

end Deploy

namespace Validate

/-- One segment of a jsonschema error path (`e.path` is a deque whose
elements are object keys, Python str, and array indices, Python int). -/
inductive Seg where
  | idx (n : Nat)
  | key (s : String)
deriving DecidableEq, Repr

/-- One violation reported by the external jsonschema validator, as consumed
by main() in validate_payload.py: the raw error path (segments NOT yet
stringified — main() sorts by the raw path at line 19 and applies str(p)
only while rendering at line 23) and the message. -/
structure SchemaError where
  path : List Seg
  message : String
deriving DecidableEq, Repr

/-- Python < on two path segments, where it is defined: numeric on two ints,
lexicographic on two strings; `some` of the comparison result.  Comparing an
int with a str raises TypeError in Python, modelled as `none`. -/
def segLtB : Seg → Seg → Option Bool
  | .idx m, .idx n => some (decide (m < n))
  | .key s, .key t => some (decide (s < t))
  | _, _ => none

/-- Deque (lexicographic) < on raw error paths, as Python evaluates it for
`sorted(..., key=lambda e: e.path)`: scan past equal positions (Python ==
on an int and a str is False, never an error, matching structural equality
of `Seg`), then strictly compare the first unequal position; a strict
prefix is smaller.  `none` propagates the TypeError of a mixed-type
comparison at the deciding position. -/
def pathLtB : List Seg → List Seg → Option Bool
  | [], [] => some false
  | [], _ :: _ => some true
  | _ :: _, [] => some false
  | a :: as, b :: bs => if a = b then pathLtB as bs else segLtB a b

/-- Totalized strict order on segments used by the model's sort: it agrees
with Python < whenever that is defined (ints numerically, strings
lexicographically) and places every int index before every str key on the
mixed pairs where Python's sorted would instead raise TypeError, so that
the model stays a total function; the convention is never exercised on
lists of pairwise comparable paths. -/
def segLtTotalB : Seg → Seg → Bool
  | .idx m, .idx n => decide (m < n)
  | .key s, .key t => decide (s < t)
  | .idx _, .key _ => true
  | .key _, .idx _ => false

/-- The non-strict total path comparison the model sorts with: lexicographic
over `segLtTotalB`. -/
def pathLeB : List Seg → List Seg → Bool
  | [], _ => true
  | _ :: _, [] => false
  | a :: as, b :: bs => if a = b then pathLeB as bs else segLtTotalB a b

/-- Stringification of one segment, `str(p)` at line 23. -/
def strSeg : Seg → String
  | .idx n => toString n
  | .key s => s

/-- Rendering of one violation path, line 23:
`".".join([str(p) for p in e.path]) or "(root)"` — the dot-joined
stringified segments, with the empty join replaced by the placeholder. -/
def renderPath (path : List Seg) : String :=
  let joined := String.intercalate "." (path.map strSeg)
  if joined = "" then "(root)" else joined

/-- Rendering of one report line, line 24: dash, rendered path, colon,
message. -/
def renderLine (e : SchemaError) : String :=
  "- " ++ renderPath e.path ++ ": " ++ e.message

/-- Violations sorted by raw path, modelling line 19
`errors = sorted(v.iter_errors(payload), key=lambda e: e.path)`
(Python sorted and List.mergeSort are both stable). -/
def sortedErrors (errors : List SchemaError) : List SchemaError :=
  errors.mergeSort (fun a b => pathLeB a.path b.path)

/-- Reporting logic of main() in validate_payload.py (lines 18-29), over the
violation list delivered by the external jsonschema Draft202012Validator:
the list of printed lines and the process exit code. -/
def validateMain (errors : List SchemaError) : List String × Nat :=
  let errs := sortedErrors errors
  if errs = [] then (["Payload schema validation OK."], 0)
  else ("Payload schema validation FAILED:\n" :: errs.map renderLine, 2)

end Validate

/-! ## Sanity checks of the hash embedding against published values -/

/-- FIPS 180-4 test vector for sha256("abc"). -/
theorem sha256hex_abc :
    Deploy.sha256hex [97, 98, 99] =
      "ba7816bf8f01cfea414140de5dae2223b00361a396177a9cb410ff61f20015ad" := by
  decide

/-- Known digest of the empty message. -/
theorem sha256hex_empty :
    Deploy.sha256hex [] =
      "e3b0c44298fc1c149afbf4c8996fb92427ae41e4649b934ca495991b7852b855" := by
  decide

/-- Cross-check of the whole key derivation (canonical JSON serialization,
salt append, SHA-256, hex) against the value hashlib.sha256 produces for
this payload and salt. -/
theorem make_idempotency_key_crosscheck :
    Deploy.make_idempotency_key (.jobj [("env", .jstr "prod")])
      "rev|42|https://deploy-api.internal" =
      "86d8d1e0634544875b9211cfc505a07f0944f376c4bdd78773637e58022281d1" := by
  decide

/-! ## Request executor: backoff shape and attempt bound -/

/-- Sleep durations of the retry loop, from any starting attempt index:
the j-th sleep performed is min 60 (2 ^ (attempt + j)), and at most
`remaining` sleeps (hence retries) happen. -/
theorem requestGo_sleeps (transport : Nat → Deploy.TransportOutcome) :
    ∀ remaining attempt,
      (Deploy.requestGo transport attempt remaining).2 =
        (List.range (Deploy.requestGo transport attempt remaining).2.length).map
          (fun i => min 60 (2 ^ (attempt + i))) ∧
      (Deploy.requestGo transport attempt remaining).2.length ≤ remaining := by
  intro remaining
  induction remaining with
  | zero =>
    intro attempt
    cases h : transport attempt <;> simp [Deploy.requestGo, h]
  | succ r ih =>
    intro attempt
    cases h : transport attempt with
    | ok s b => simp [Deploy.requestGo, h]
    | httpError s b =>
      by_cases hs : s ∈ Deploy.RETRYABLE_HTTP
      · obtain ⟨ih1, ih2⟩ := ih (attempt + 1)
        simp only [Deploy.requestGo, h, hs, if_true, List.length_cons]
        constructor
        · rw [List.range_succ_eq_map, List.map_cons, List.map_map]
          refine congrArg₂ _ (by simp) ?_
          rw [ih1]
          simp only [List.length_map, List.length_range]
          refine List.map_congr_left ?_
          intro i _
          have he : attempt + 1 + i = attempt + (i + 1) := by omega
          simp [Function.comp, he]
        · omega
      · simp [Deploy.requestGo, h, hs]
    | netError =>
      obtain ⟨ih1, ih2⟩ := ih (attempt + 1)
      simp only [Deploy.requestGo, h, List.length_cons]
      constructor
      · rw [List.range_succ_eq_map, List.map_cons, List.map_map]
        refine congrArg₂ _ (by simp) ?_
        rw [ih1]
        simp only [List.length_map, List.length_range]
        refine List.map_congr_left ?_
        intro i _
        have he : attempt + 1 + i = attempt + (i + 1) := by omega
        simp [Function.comp, he]
      · omega

/-- C1: every retryable outcome (HTTP status in {429, 500, 502, 503, 504} or
a network-level failure) with retry budget remaining is retried after an
unjittered exponential backoff sleep of min 60 (2 ^ attempt) seconds with the
attempt counter starting at 0, so the sleep sequence is 1, 2, 4, 8, 16, 32,
60, 60, ...; the total number of attempts is at most max_retries + 1; and
with a transport returning 503, 503, 200 and max_retries = 2 the call
succeeds on the third attempt after sleeping exactly 1s then 2s. -/
theorem c1_retry_backoff :
    (∀ transport max_retries,
      Deploy.requestAttempts transport max_retries ≤ max_retries + 1) ∧
    (∀ transport max_retries,
      (Deploy.request transport max_retries).2 =
        (List.range (Deploy.request transport max_retries).2.length).map
          (fun i => min 60 (2 ^ i))) ∧
    (∀ transport attempt r s b, transport attempt = .httpError s b →
      s ∈ Deploy.RETRYABLE_HTTP →
      Deploy.requestGo transport attempt (r + 1) =
        ((Deploy.requestGo transport (attempt + 1) r).1,
          min 60 (2 ^ attempt) :: (Deploy.requestGo transport (attempt + 1) r).2)) ∧
    (∀ transport attempt r, transport attempt = .netError →
      Deploy.requestGo transport attempt (r + 1) =
        ((Deploy.requestGo transport (attempt + 1) r).1,
          min 60 (2 ^ attempt) :: (Deploy.requestGo transport (attempt + 1) r).2)) ∧
    Deploy.request Deploy.transport503 2 = (.ok 200 [111, 107], [1, 2]) := by
  refine ⟨?_, ?_, ?_, ?_, by decide⟩
  · intro transport max_retries
    have h := (requestGo_sleeps transport max_retries 0).2
    simpa [Deploy.requestAttempts, Deploy.request] using h
  · intro transport max_retries
    have h := (requestGo_sleeps transport max_retries 0).1
    simpa [Deploy.request] using h
  · intro transport attempt r s b h hs
    simp [Deploy.requestGo, h, hs]
  · intro transport attempt r h
    simp [Deploy.requestGo, h]

/-- Witness for c1_retry_backoff: its universally quantified parts applied to
the simulated 503, 503, 200 transport, every hypothesis discharged there. -/
theorem c1_retry_backoff_witness :
    Deploy.requestAttempts Deploy.transport503 2 ≤ 3 ∧
    Deploy.requestGo Deploy.transport503 0 2 =
      ((Deploy.requestGo Deploy.transport503 1 1).1,
        min 60 (2 ^ 0) :: (Deploy.requestGo Deploy.transport503 1 1).2) := by
  refine ⟨c1_retry_backoff.1 Deploy.transport503 2, ?_⟩
  exact c1_retry_backoff.2.2.1 Deploy.transport503 0 1 503 [] rfl (by decide)

/-! ## Request executor: non-retryable statuses -/

/-- C2 counterexample: with a transport answering HTTP 404 on the first
attempt, `_request` does not return the (404, body) pair to its caller — it
raises the RuntimeError wrapping the HTTPError — although it performs no
retry (no backoff sleep). -/
theorem c2_counterexample :
    (Deploy.request Deploy.transport404 6).1 ≠ Deploy.ReqResult.ok 404 [110, 111] ∧
    (Deploy.request Deploy.transport404 6).1 = Deploy.ReqResult.httpFailure 404 [110, 111] ∧
    (Deploy.request Deploy.transport404 6).2 = [] := by
  decide

/-- C2 amended: a response urlopen returns on (a success status) is handed
back immediately as the (status, body) pair with no retry; an HTTP error
response — one urlopen raises HTTPError for — whose status is not in the
retryable set (for example 404) is likewise never retried (zero backoff
sleeps, so the first attempt is the only one), but instead of being
returned it makes the executor fail at once with the RuntimeError wrapping
that status and response body. -/
theorem c2_non_retryable_fails_fast :
    (∀ transport max_retries s b, transport 0 = .ok s b →
      Deploy.request transport max_retries = (.ok s b, [])) ∧
    (∀ transport max_retries s b, transport 0 = .httpError s b →
      s ∉ Deploy.RETRYABLE_HTTP →
      Deploy.request transport max_retries = (.httpFailure s b, [])) := by
  constructor
  · intro transport max_retries s b h
    cases max_retries <;> simp [Deploy.request, Deploy.requestGo, h]
  · intro transport max_retries s b h hs
    cases max_retries with
    | zero => simp [Deploy.request, Deploy.requestGo, h]
    | succ r => simp [Deploy.request, Deploy.requestGo, h, hs]

/-- Witness for c2_non_retryable_fails_fast: the success branch at a 200
transport and the error branch at the 404 transport. -/
theorem c2_non_retryable_fails_fast_witness :
    Deploy.request Deploy.transportOk200 6 = (.ok 200 [111, 107], []) ∧
    Deploy.request Deploy.transport404 6 = (.httpFailure 404 [110, 111], []) :=
  ⟨c2_non_retryable_fails_fast.1 Deploy.transportOk200 6 200 [111, 107] rfl,
   c2_non_retryable_fails_fast.2 Deploy.transport404 6 404 [110, 111] rfl
     (by decide)⟩

/-! ## Polling loop: wait budget -/

/-- C3: whenever the elapsed time already exceeds the max-wait budget at the
top of the polling loop, the loop reports TimedOut at once, issuing zero
further status requests (the request counter is returned unchanged); and in
the concrete scenario max_wait = 5, poll = 2 with a status endpoint that
never reports a terminal state, exactly 3 status requests happen — at most
3 — before TimedOut is reported. -/
theorem c3_poller_budget :
    (∀ states max_wait poll fuel elapsed k, max_wait < elapsed →
      Deploy.pollGo states max_wait poll (fuel + 1) elapsed k =
        some (.timedOut, k)) ∧
    Deploy.jobPoll Deploy.neverTerminal 5 2 = some (.timedOut, 3) := by
  refine ⟨?_, by decide⟩
  intro states max_wait poll fuel elapsed k h
  simp [Deploy.pollGo, h]

/-- Witness for c3_poller_budget: the budget-exceeded branch applied right
where the concrete scenario crosses the budget (elapsed 6 > max_wait 5,
after 3 requests). -/
theorem c3_poller_budget_witness :
    Deploy.pollGo Deploy.neverTerminal 5 2 1 6 3 = some (.timedOut, 3) :=
  c3_poller_budget.1 Deploy.neverTerminal 5 2 0 6 3 (by decide)

/-! ## Job-id extraction from the submission response -/

/-- C4 counterexample: the submission response with body id = 1 does contain
a recognized job-id field — "id" is second in the priority list — so far
from producing the missing-job-id failure with zero polling requests, the
run adopts 1 as the job id and proceeds to poll (here: 3 status requests
before timing out). -/
theorem c4_counterexample :
    Deploy.extract_job_id [("id", .jnum 1)] = some (.jnum 1) ∧
    Deploy.runAfterSubmit [("id", .jnum 1)] Deploy.neverTerminal 5 2 =
      some ⟨4, 3, 0⟩ ∧
    ¬ Deploy.runAfterSubmit [("id", .jnum 1)] Deploy.neverTerminal 5 2 =
      some ⟨3, 0, 0⟩ :=
  ⟨rfl, by decide, by decide⟩

/-- C4 amended: the submitter accepts the first truthy field among the
priority-ordered names jobId, id, deploymentId; when no recognized field
holds a truthy value it fails with the missing-job-id exit code 3 and no
polling request is ever issued; however the response with body id = 1 does
carry a recognized field name ("id"), so it yields job id 1 rather than the
missing-job-id failure. -/
theorem c4_job_id_extraction :
    (∀ resp states max_wait poll,
      Deploy.truthyOpt (Deploy.extract_job_id resp) = false →
      Deploy.runAfterSubmit resp states max_wait poll = some ⟨3, 0, 0⟩) ∧
    Deploy.extract_job_id
      [("jobId", .jstr "a"), ("id", .jstr "b"), ("deploymentId", .jstr "c")] =
      some (.jstr "a") ∧
    Deploy.extract_job_id [("id", .jstr "b"), ("deploymentId", .jstr "c")] =
      some (.jstr "b") ∧
    Deploy.extract_job_id [("deploymentId", .jstr "c")] = some (.jstr "c") ∧
    Deploy.extract_job_id [] = none ∧
    Deploy.extract_job_id [("id", .jnum 1)] = some (.jnum 1) := by
  refine ⟨?_, rfl, rfl, rfl, rfl, rfl⟩
  intro resp states max_wait poll h
  simp [Deploy.runAfterSubmit, h]

/-- Witness for c4_job_id_extraction: the missing-job-id branch applied to
the empty submission response. -/
theorem c4_job_id_extraction_witness :
    Deploy.runAfterSubmit [] Deploy.neverTerminal 5 2 = some ⟨3, 0, 0⟩ :=
  c4_job_id_extraction.1 [] Deploy.neverTerminal 5 2 (by decide)

/-! ## Idempotency key derivation -/

/-- Hex rendering of one word always yields 8 characters. -/
theorem wordHex_length (w : Nat) : (Deploy.wordHex w).length = 8 := by
  simp [Deploy.wordHex]

/-- Every digit the hex table can produce is a lowercase hex character. -/
theorem hexDigitChar_mem :
    ∀ n, n < 16 → Deploy.hexDigitChar n ∈ "0123456789abcdef".data := by
  decide

/-- Every character of a rendered word is a lowercase hex character. -/
theorem wordHex_mem (w : Nat) (c : Char) (h : c ∈ Deploy.wordHex w) :
    c ∈ "0123456789abcdef".data := by
  simp only [Deploy.wordHex, List.mem_map, List.mem_range] at h
  obtain ⟨i, _, rfl⟩ := h
  exact hexDigitChar_mem _ (Nat.mod_lt _ (by norm_num))

/-- The rendered digest always has 64 characters. -/
theorem sha256hex_length (msg : List Nat) :
    (Deploy.sha256hex msg).length = 64 := by
  simp [Deploy.sha256hex, String.length, wordHex_length]

/-- Every character of the rendered digest is a lowercase hex character. -/
theorem sha256hex_mem (msg : List Nat) (c : Char)
    (h : c ∈ (Deploy.sha256hex msg).data) : c ∈ "0123456789abcdef".data := by
  simp only [Deploy.sha256hex, String.data, List.mem_append] at h
  rcases h with ((((((h | h) | h) | h) | h) | h) | h) | h <;>
    exact wordHex_mem _ _ h

/-- C5 counterexample: the payloads written a-first and b-first are equal as
mappings (every key lookup agrees), yet with the same salt their idempotency
keys differ, because json.dumps is called without sort_keys and serializes
fields in insertion order. -/
theorem c5_counterexample :
    Deploy.objEqAsMapping Deploy.payloadAB Deploy.payloadBA ∧
    Deploy.make_idempotency_key (.jobj Deploy.payloadAB) "s" ≠
      Deploy.make_idempotency_key (.jobj Deploy.payloadBA) "s" := by
  constructor
  · intro k
    by_cases h1 : "a" = k
    · subst h1; rfl
    · by_cases h2 : "b" = k
      · subst h2; rfl
      · simp [Deploy.payloadAB, Deploy.payloadBA, Deploy.dictGet, h1, h2]
  · decide

/-- C5 amended: the key derivation is a pure deterministic function — equal
payload representation and equal salt always give the same key — computed by
serializing the payload compactly (no extraneous whitespace) in field
insertion order, appending the salt bytes, and rendering the SHA-256 digest
as 64 lowercase hex characters; since keys are not sorted during
serialization, two payloads that are equal as mappings but were parsed with
different key orders can serialize differently (and then hash to different
keys). -/
theorem c5_idempotency_key :
    (∀ payload salt, Deploy.make_idempotency_key payload salt =
      Deploy.make_idempotency_key payload salt) ∧
    (∀ payload salt, (Deploy.make_idempotency_key payload salt).length = 64) ∧
    (∀ payload salt c, c ∈ (Deploy.make_idempotency_key payload salt).data →
      c ∈ "0123456789abcdef".data) ∧
    Deploy.json_dumps (.jobj Deploy.payloadAB) ≠
      Deploy.json_dumps (.jobj Deploy.payloadBA) := by
  refine ⟨fun _ _ => rfl, ?_, ?_, by decide⟩
  · intro payload salt
    exact sha256hex_length _
  · intro payload salt c h
    exact sha256hex_mem _ _ h

/-- Witness for c5_idempotency_key: the digest-shape parts applied to the
key of a concrete payload and salt, whose first character is '8'. -/
theorem c5_idempotency_key_witness :
    (Deploy.make_idempotency_key (.jobj [("env", .jstr "prod")])
      "rev|42|https://deploy-api.internal").length = 64 ∧
    '8' ∈ "0123456789abcdef".data := by
  constructor
  · exact c5_idempotency_key.2.1 (.jobj [("env", .jstr "prod")])
      "rev|42|https://deploy-api.internal"
  · exact c5_idempotency_key.2.2.1 (.jobj [("env", .jstr "prod")])
      "rev|42|https://deploy-api.internal" '8' (by decide)

/-! ## State classification -/

/-- The success and failure vocabularies share no member. -/
theorem success_failure_disjoint (x : String)
    (hs : x ∈ Deploy.SUCCESS_STATES) : x ∉ Deploy.FAILURE_STATES := by
  simp only [Deploy.SUCCESS_STATES, List.mem_cons, List.not_mem_nil,
    or_false] at hs
  rcases hs with rfl | rfl | rfl <;> decide

/-- C6: classification is an exact, case-insensitive match — lowercase the
raw state, membership in the success vocabulary means Succeeded, membership
in the failure vocabulary means Failed, and any other string (the empty
string included) means InProgress; with the spec's concrete instances. -/
theorem c6_state_classification :
    (∀ s, Deploy.classifyState s = .succeeded ↔
      Deploy.lowerString s ∈ Deploy.SUCCESS_STATES) ∧
    (∀ s, Deploy.classifyState s = .failed ↔
      Deploy.lowerString s ∈ Deploy.FAILURE_STATES) ∧
    (∀ s, Deploy.lowerString s ∉ Deploy.SUCCESS_STATES →
      Deploy.lowerString s ∉ Deploy.FAILURE_STATES →
      Deploy.classifyState s = .inProgress) ∧
    Deploy.classifyState "SUCCEEDED" = .succeeded ∧
    Deploy.classifyState "Cancelled" = .failed ∧
    Deploy.classifyState "queued" = .inProgress ∧
    Deploy.classifyState "" = .inProgress := by
  refine ⟨?_, ?_, ?_, by decide, by decide, by decide, by decide⟩
  · intro s
    by_cases h1 : Deploy.lowerString s ∈ Deploy.SUCCESS_STATES
    · simp [Deploy.classifyState, h1]
    · by_cases h2 : Deploy.lowerString s ∈ Deploy.FAILURE_STATES
      · simp [Deploy.classifyState, h1, h2]
      · simp [Deploy.classifyState, h1, h2]
  · intro s
    by_cases h1 : Deploy.lowerString s ∈ Deploy.SUCCESS_STATES
    · have h2 := success_failure_disjoint _ h1
      simp [Deploy.classifyState, h1, h2]
    · by_cases h2 : Deploy.lowerString s ∈ Deploy.FAILURE_STATES
      · simp [Deploy.classifyState, h1, h2]
      · simp [Deploy.classifyState, h1, h2]
  · intro s h1 h2
    simp [Deploy.classifyState, h1, h2]

/-- Witness for c6_state_classification: the InProgress fallback applied to
"queued" and the success membership direction applied to "SUCCEEDED". -/
theorem c6_state_classification_witness :
    Deploy.classifyState "queued" = .inProgress ∧
    Deploy.classifyState "SUCCEEDED" = .succeeded :=
  ⟨c6_state_classification.2.2.1 "queued" (by decide) (by decide),
   (c6_state_classification.1 "SUCCEEDED").2 (by decide)⟩

/-! ## Exit codes and artifact writes -/

/-- C7: the run exits 0 on success, and each of the four failure conditions
— missing required configuration (empty base URL or empty API key),
submission response without a job id, wait-budget exhaustion, and a
remote-reported failure — exits with its own stable nonzero code
(2, 3, 4 and 5 respectively), all five codes pairwise distinct. -/
theorem c7_exit_codes :
    (∀ api_key resp states max_wait poll,
      Deploy.runDeploy "" api_key resp states max_wait poll = some ⟨2, 0, 0⟩) ∧
    (∀ base_url resp states max_wait poll, base_url ≠ "" →
      Deploy.runDeploy base_url "" resp states max_wait poll = some ⟨2, 0, 0⟩) ∧
    (∀ base_url api_key resp states max_wait poll,
      base_url ≠ "" → api_key ≠ "" →
      Deploy.truthyOpt (Deploy.extract_job_id resp) = false →
      Deploy.runDeploy base_url api_key resp states max_wait poll =
        some ⟨3, 0, 0⟩) ∧
    (∀ base_url api_key resp states max_wait poll k,
      base_url ≠ "" → api_key ≠ "" →
      Deploy.truthyOpt (Deploy.extract_job_id resp) = true →
      Deploy.jobPoll states max_wait poll = some (.timedOut, k) →
      Deploy.runDeploy base_url api_key resp states max_wait poll =
        some ⟨4, k, 0⟩) ∧
    (∀ base_url api_key resp states max_wait poll k,
      base_url ≠ "" → api_key ≠ "" →
      Deploy.truthyOpt (Deploy.extract_job_id resp) = true →
      Deploy.jobPoll states max_wait poll = some (.failed, k) →
      Deploy.runDeploy base_url api_key resp states max_wait poll =
        some ⟨5, k, 1⟩) ∧
    (∀ base_url api_key resp states max_wait poll k,
      base_url ≠ "" → api_key ≠ "" →
      Deploy.truthyOpt (Deploy.extract_job_id resp) = true →
      Deploy.jobPoll states max_wait poll = some (.succeeded, k) →
      Deploy.runDeploy base_url api_key resp states max_wait poll =
        some ⟨0, k, 1⟩) ∧
    List.Pairwise (· ≠ ·) [0, 2, 3, 4, 5] := by
  refine ⟨?_, ?_, ?_, ?_, ?_, ?_, by decide⟩
  · intro api_key resp states max_wait poll
    simp [Deploy.runDeploy]
  · intro base_url resp states max_wait poll hu
    simp [Deploy.runDeploy, hu]
  · intro base_url api_key resp states max_wait poll hu hk hj
    simp [Deploy.runDeploy, Deploy.runAfterSubmit, hu, hk, hj]
  · intro base_url api_key resp states max_wait poll k hu hk hj hp
    simp [Deploy.runDeploy, Deploy.runAfterSubmit, hu, hk, hj, hp]
  · intro base_url api_key resp states max_wait poll k hu hk hj hp
    simp [Deploy.runDeploy, Deploy.runAfterSubmit, hu, hk, hj, hp]
  · intro base_url api_key resp states max_wait poll k hu hk hj hp
    simp [Deploy.runDeploy, Deploy.runAfterSubmit, hu, hk, hj, hp]

/-- Witness for c7_exit_codes: the missing-API-key, timeout and success
branches applied to concrete runs. -/
theorem c7_exit_codes_witness :
    Deploy.runDeploy "u" "" [] Deploy.neverTerminal 5 2 = some ⟨2, 0, 0⟩ ∧
    Deploy.runDeploy "u" "k" [("jobId", .jstr "abc")] Deploy.neverTerminal 5 2 =
      some ⟨4, 3, 0⟩ ∧
    Deploy.runDeploy "u" "k" [("jobId", .jstr "abc")] Deploy.alwaysCompleted 5 2 =
      some ⟨0, 1, 1⟩ :=
  ⟨c7_exit_codes.2.1 "u" [] Deploy.neverTerminal 5 2 (by decide),
   c7_exit_codes.2.2.2.1 "u" "k" [("jobId", .jstr "abc")] Deploy.neverTerminal
     5 2 3 (by decide) (by decide) (by decide) (by decide),
   c7_exit_codes.2.2.2.2.2.1 "u" "k" [("jobId", .jstr "abc")]
     Deploy.alwaysCompleted 5 2 1 (by decide) (by decide) (by decide) (by decide)⟩

/-- C8 counterexample: a run whose polling ends in the terminal outcome
TimedOut performs zero artifact writes — nothing is handed to the result
recorder — contradicting "exactly one TerminalResult ... for every terminal
outcome". -/
theorem c8_counterexample :
    Deploy.runAfterSubmit [("jobId", .jstr "abc")] Deploy.neverTerminal 5 2 =
      some ⟨4, 3, 0⟩ ∧
    (Deploy.runAfterSubmit [("jobId", .jstr "abc")] Deploy.neverTerminal 5 2).map
      Deploy.RunResult.artifactWrites ≠ some 1 :=
  ⟨by decide, by decide⟩

/-- C8 amended: when polling ends in Succeeded or Failed, exactly one
artifact (the TerminalResult) is written, at the point polling ends; a run
that ends in TimedOut writes none. -/
theorem c8_artifact_writes :
    (∀ resp states max_wait poll k,
      Deploy.truthyOpt (Deploy.extract_job_id resp) = true →
      Deploy.jobPoll states max_wait poll = some (.succeeded, k) →
      Deploy.runAfterSubmit resp states max_wait poll = some ⟨0, k, 1⟩) ∧
    (∀ resp states max_wait poll k,
      Deploy.truthyOpt (Deploy.extract_job_id resp) = true →
      Deploy.jobPoll states max_wait poll = some (.failed, k) →
      Deploy.runAfterSubmit resp states max_wait poll = some ⟨5, k, 1⟩) ∧
    (∀ resp states max_wait poll k,
      Deploy.truthyOpt (Deploy.extract_job_id resp) = true →
      Deploy.jobPoll states max_wait poll = some (.timedOut, k) →
      Deploy.runAfterSubmit resp states max_wait poll = some ⟨4, k, 0⟩) := by
  refine ⟨?_, ?_, ?_⟩ <;>
    · intro resp states max_wait poll k hj hp
      simp [Deploy.runAfterSubmit, hj, hp]

/-- Witness for c8_artifact_writes: all three branches at concrete runs. -/
theorem c8_artifact_writes_witness :
    Deploy.runAfterSubmit [("jobId", .jstr "abc")] Deploy.alwaysCompleted 5 2 =
      some ⟨0, 1, 1⟩ ∧
    Deploy.runAfterSubmit [("jobId", .jstr "abc")] Deploy.alwaysFailed 5 2 =
      some ⟨5, 1, 1⟩ ∧
    Deploy.runAfterSubmit [("jobId", .jstr "abc")] Deploy.neverTerminal 5 2 =
      some ⟨4, 3, 0⟩ :=
  ⟨c8_artifact_writes.1 [("jobId", .jstr "abc")] Deploy.alwaysCompleted 5 2 1
     (by decide) (by decide),
   c8_artifact_writes.2.1 [("jobId", .jstr "abc")] Deploy.alwaysFailed 5 2 1
     (by decide) (by decide),
   c8_artifact_writes.2.2 [("jobId", .jstr "abc")] Deploy.neverTerminal 5 2 3
     (by decide) (by decide)⟩

/-! ## Falsy job-id values -/

/-- C10: a submission response whose recognized job-id fields are present
but falsy — the empty string, 0, null, or false — is treated exactly like a
missing job id: exit code 3, zero status requests, zero artifact writes. -/
theorem c10_falsy_job_id :
    (∀ resp states max_wait poll,
      Deploy.truthyOpt (Deploy.extract_job_id resp) = false →
      Deploy.runAfterSubmit resp states max_wait poll = some ⟨3, 0, 0⟩) ∧
    Deploy.runAfterSubmit [("jobId", .jstr "")] Deploy.neverTerminal 5 2 =
      some ⟨3, 0, 0⟩ ∧
    Deploy.runAfterSubmit [("jobId", .jnull)] Deploy.neverTerminal 5 2 =
      some ⟨3, 0, 0⟩ ∧
    Deploy.runAfterSubmit [("id", .jnum 0)] Deploy.neverTerminal 5 2 =
      some ⟨3, 0, 0⟩ ∧
    Deploy.runAfterSubmit [("deploymentId", .jbool false)] Deploy.neverTerminal
      5 2 = some ⟨3, 0, 0⟩ ∧
    Deploy.runAfterSubmit
      [("jobId", .jnum 0), ("id", .jstr ""), ("deploymentId", .jnull)]
      Deploy.neverTerminal 5 2 = some ⟨3, 0, 0⟩ := by
  refine ⟨?_, by decide, by decide, by decide, by decide, by decide⟩
  intro resp states max_wait poll h
  simp [Deploy.runAfterSubmit, h]

/-- Witness for c10_falsy_job_id: the general branch applied to the response
whose jobId field is present but holds the empty string. -/
theorem c10_falsy_job_id_witness :
    Deploy.runAfterSubmit [("jobId", .jstr "")] Deploy.neverTerminal 5 2 =
      some ⟨3, 0, 0⟩ :=
  c10_falsy_job_id.1 [("jobId", .jstr "")] Deploy.neverTerminal 5 2 (by decide)

/-! ## Schema validation report -/

/-- The totalized strict segment order is asymmetric. -/
theorem segLtTotalB_asymm (a b : Validate.Seg) :
    Validate.segLtTotalB a b = true → Validate.segLtTotalB b a = true →
    False := by
  cases a with
  | idx m =>
    cases b with
    | idx n =>
      simp only [Validate.segLtTotalB, decide_eq_true_eq]
      omega
    | key t => simp [Validate.segLtTotalB]
  | key s =>
    cases b with
    | idx n => simp [Validate.segLtTotalB]
    | key t =>
      simp only [Validate.segLtTotalB, decide_eq_true_eq]
      intro h1 h2
      exact absurd h1 (lt_asymm h2)

/-- The totalized strict segment order is transitive. -/
theorem segLtTotalB_trans (a b c : Validate.Seg) :
    Validate.segLtTotalB a b = true → Validate.segLtTotalB b c = true →
    Validate.segLtTotalB a c = true := by
  cases a <;> cases b <;> cases c <;>
    simp only [Validate.segLtTotalB, decide_eq_true_eq] <;>
    intro h1 h2 <;>
    first
      | omega
      | exact lt_trans h1 h2
      | trivial

/-- The totalized strict segment order is connected. -/
theorem segLtTotalB_conn (a b : Validate.Seg) (h : a ≠ b) :
    Validate.segLtTotalB a b = true ∨ Validate.segLtTotalB b a = true := by
  cases a with
  | idx m =>
    cases b with
    | idx n =>
      have hmn : m ≠ n := by
        intro he
        exact h (by rw [he])
      simp only [Validate.segLtTotalB, decide_eq_true_eq]
      omega
    | key t => exact Or.inl rfl
  | key s =>
    cases b with
    | idx n => exact Or.inr rfl
    | key t =>
      have hst : s ≠ t := by
        intro he
        exact h (by rw [he])
      simp only [Validate.segLtTotalB, decide_eq_true_eq]
      exact lt_or_gt_of_ne hst

/-- On segment pairs where Python < is defined, the totalized order used by
the model agrees with it, strictly. -/
theorem segLtB_total_agree (a b : Validate.Seg)
    (h : Validate.segLtB a b = some true) :
    Validate.segLtTotalB a b = true ∧ Validate.segLtTotalB b a = false := by
  cases a with
  | idx m =>
    cases b with
    | idx n =>
      simp only [Validate.segLtB, Option.some.injEq, decide_eq_true_eq] at h
      simp only [Validate.segLtTotalB, decide_eq_true_eq,
        decide_eq_false_iff_not]
      omega
    | key t => simp [Validate.segLtB] at h
  | key s =>
    cases b with
    | idx n => simp [Validate.segLtB] at h
    | key t =>
      simp only [Validate.segLtB, Option.some.injEq, decide_eq_true_eq] at h
      simp only [Validate.segLtTotalB, decide_eq_true_eq,
        decide_eq_false_iff_not]
      exact ⟨h, lt_asymm h⟩

/-- Path comparison is transitive. -/
theorem pathLeB_trans : ∀ a b c : List Validate.Seg,
    Validate.pathLeB a b = true → Validate.pathLeB b c = true →
    Validate.pathLeB a c = true := by
  intro a
  induction a with
  | nil => intro b c _ _; rfl
  | cons x xs ih =>
    intro b c h1 h2
    cases b with
    | nil => simp [Validate.pathLeB] at h1
    | cons y ys =>
      cases c with
      | nil => simp [Validate.pathLeB] at h2
      | cons z zs =>
        simp only [Validate.pathLeB] at h1 h2 ⊢
        by_cases hxy : x = y
        · subst hxy
          by_cases hxz : x = z
          · subst hxz
            simp only [if_pos rfl] at h1 h2 ⊢
            exact ih ys zs h1 h2
          · simp only [if_neg hxz] at h2 ⊢
            exact h2
        · by_cases hyz : y = z
          · subst hyz
            simp only [if_neg hxy] at h1 ⊢
            exact h1
          · simp only [if_neg hxy] at h1
            simp only [if_neg hyz] at h2
            have hxz : x ≠ z := by
              intro he
              subst he
              exact segLtTotalB_asymm x y h1 h2
            simp only [if_neg hxz]
            exact segLtTotalB_trans x y z h1 h2

/-- Path comparison is total. -/
theorem pathLeB_total : ∀ a b : List Validate.Seg,
    Validate.pathLeB a b || Validate.pathLeB b a := by
  intro a
  induction a with
  | nil => intro b; simp [Validate.pathLeB]
  | cons x xs ih =>
    intro b
    cases b with
    | nil => simp [Validate.pathLeB]
    | cons y ys =>
      simp only [Validate.pathLeB]
      by_cases hxy : x = y
      · subst hxy
        simp only [if_pos rfl]
        exact ih ys
      · have hyx : y ≠ x := fun he => hxy he.symm
        simp only [if_neg hxy, if_neg hyx]
        rcases segLtTotalB_conn x y hxy with h | h
        · simp [h]
        · simp [h]

/-- Wherever the Python deque order on raw paths is defined and strict, the
total comparison the model sorts with agrees with it, strictly. -/
theorem pathLtB_pathLeB : ∀ a b : List Validate.Seg,
    Validate.pathLtB a b = some true →
    Validate.pathLeB a b = true ∧ Validate.pathLeB b a = false := by
  intro a
  induction a with
  | nil =>
    intro b h
    cases b with
    | nil => simp [Validate.pathLtB] at h
    | cons y ys => simp [Validate.pathLeB]
  | cons x xs ih =>
    intro b h
    cases b with
    | nil => simp [Validate.pathLtB] at h
    | cons y ys =>
      by_cases hxy : x = y
      · subst hxy
        simp only [Validate.pathLtB, if_pos rfl] at h
        obtain ⟨ha, hb⟩ := ih ys h
        exact ⟨by simpa [Validate.pathLeB] using ha,
          by simpa [Validate.pathLeB] using hb⟩
      · have hyx : y ≠ x := fun he => hxy he.symm
        simp only [Validate.pathLtB, if_neg hxy] at h
        obtain ⟨ha, hb⟩ := segLtB_total_agree x y h
        constructor
        · simp only [Validate.pathLeB, if_neg hxy]
          exact ha
        · simp only [Validate.pathLeB, if_neg hyx]
          exact hb

/-- C9: with no violations the validator prints only the success message and
exits 0; with violations it exits 2 and prints the FAILED header followed by
one line per violation, the violations (a permutation of the input list)
sorted by raw field path — array-index segments numerically, key segments
lexicographically, so no adjacent pair is out of Python deque order wherever
that order is defined — each line rendered from the dot-joined stringified
segments, the root path rendered as the placeholder "(root)", paired with
the message. -/
theorem c9_validator_report :
    Validate.validateMain [] = (["Payload schema validation OK."], 0) ∧
    (∀ errors, errors ≠ [] →
      (Validate.validateMain errors).2 = 2 ∧
      (Validate.validateMain errors).1 =
        "Payload schema validation FAILED:\n" ::
          (Validate.sortedErrors errors).map Validate.renderLine ∧
      List.Pairwise (fun a b => Validate.pathLeB a.path b.path = true)
        (Validate.sortedErrors errors) ∧
      List.Pairwise (fun a b => ¬ Validate.pathLtB b.path a.path = some true)
        (Validate.sortedErrors errors) ∧
      (Validate.sortedErrors errors).Perm errors) ∧
    (∀ a b, Validate.pathLtB a b = some true →
      Validate.pathLeB a b = true ∧ Validate.pathLeB b a = false) ∧
    Validate.sortedErrors [⟨[.idx 10], "m10"⟩, ⟨[.idx 2], "m2"⟩] =
      [⟨[.idx 2], "m2"⟩, ⟨[.idx 10], "m10"⟩] ∧
    Validate.renderPath [] = "(root)" ∧
    Validate.renderLine ⟨[], "is a required property"⟩ =
      "- (root): is a required property" ∧
    Validate.renderLine ⟨[.key "spec", .idx 2], "not of type integer"⟩ =
      "- spec.2: not of type integer" := by
  refine ⟨?_, ?_, pathLtB_pathLeB, ?_, rfl, by decide, by decide⟩
  · simp [Validate.validateMain, Validate.sortedErrors]
  · intro errors he
    have hperm : (Validate.sortedErrors errors).Perm errors :=
      List.mergeSort_perm errors _
    have hne : Validate.sortedErrors errors ≠ [] := by
      intro h0
      apply he
      have hlen := hperm.length_eq
      rw [h0] at hlen
      exact List.eq_nil_of_length_eq_zero hlen.symm
    have hs := @List.sorted_mergeSort Validate.SchemaError
      (fun a b => Validate.pathLeB a.path b.path)
      (fun a b c => pathLeB_trans a.path b.path c.path)
      (fun a b => pathLeB_total a.path b.path) errors
    have hsorted : List.Pairwise
        (fun a b : Validate.SchemaError =>
          Validate.pathLeB a.path b.path = true)
        (Validate.sortedErrors errors) := by
      simpa [Validate.sortedErrors] using hs
    refine ⟨?_, ?_, hsorted, ?_, hperm⟩
    · simp [Validate.validateMain, hne]
    · simp [Validate.validateMain, hne]
    · refine hsorted.imp ?_
      intro a b hab hlt
      have hfalse := (pathLtB_pathLeB b.path a.path hlt).2
      rw [hab] at hfalse
      simp at hfalse
  · simp [Validate.sortedErrors, List.mergeSort, List.merge,
      Validate.pathLeB, Validate.segLtTotalB]

/-- Witness for c9_validator_report: the violation branch applied to a
concrete two-element violation list mixing a key path and a root path. -/
theorem c9_validator_report_witness :
    (Validate.validateMain [⟨[.key "b"], "m2"⟩, ⟨[], "m0"⟩]).2 = 2 ∧
    (Validate.validateMain [⟨[.key "b"], "m2"⟩, ⟨[], "m0"⟩]).1 =
      "Payload schema validation FAILED:\n" ::
        (Validate.sortedErrors [⟨[.key "b"], "m2"⟩, ⟨[], "m0"⟩]).map
          Validate.renderLine ∧
    List.Pairwise (fun a b => Validate.pathLeB a.path b.path = true)
      (Validate.sortedErrors [⟨[.key "b"], "m2"⟩, ⟨[], "m0"⟩]) ∧
    List.Pairwise (fun a b => ¬ Validate.pathLtB b.path a.path = some true)
      (Validate.sortedErrors [⟨[.key "b"], "m2"⟩, ⟨[], "m0"⟩]) ∧
    (Validate.sortedErrors [⟨[.key "b"], "m2"⟩, ⟨[], "m0"⟩]).Perm
      [⟨[.key "b"], "m2"⟩, ⟨[], "m0"⟩] :=
  c9_validator_report.2.1 [⟨[.key "b"], "m2"⟩, ⟨[], "m0"⟩] (by decide)
